import Mathlib

/-!
Shallow embedding of `src/mongo/db/s/sharding_state.cpp` (the per-node sharding
state machine of a MongoDB shard server) and proofs about its behaviour.

The C++ class `ShardingState` holds an atomic lifecycle state, an identity
(shard name, cluster id), and a stored initialization status.  External
collaborators (the grid's shard registry, the global-initialization callback,
the storage layer, the replication coordinator) are modelled as explicit
inputs to the embedded functions.  Exceptions (`DBException`) are modelled as
explicit outcome constructors; `invariant` / `fassert` process-fatal checks are
modelled as a `fatal` outcome carrying a distinguishing identifier (the
`fassert` branches keep their numeric codes 40372 / 40373 / 40374; plain
`invariant` branches get small identifiers 1..6).
-/

namespace Mongo

/-- Error codes used by the embedded functions; a subset of MongoDB's
`ErrorCodes` enum, covering the codes this file mentions plus representative
members of the `NotMasterError` category and a generic storage failure. -/
inductive ErrorCode
  | NoShardingEnabled
  | ShardingStateNotInitialized
  | ManualInterventionRequired
  | InvalidOptions
  | InternalError
  | ConflictingOperationInProgress
  | NotMaster
  | NotMasterNoSlaveOk
  | NotMasterOrSecondary
  | OperationFailed
  | NoSuchKey
  | UnsupportedFormat
  deriving DecidableEq, Repr

/-- Membership in the `NotMasterError` error-code category (the class of
"not primary" errors swallowed by the asynchronous topology-change callback). -/
def ErrorCode.isNotMasterError : ErrorCode → Bool
  | .NotMaster => true
  | .NotMasterNoSlaveOk => true
  | .NotMasterOrSecondary => true
  | _ => false

/-- A non-OK `Status`: its error code and, when it was built with `causedBy`,
the code of the underlying cause. -/
structure ErrStatus where
  code : ErrorCode
  cause : Option ErrorCode
  deriving DecidableEq, Repr

/-- A `Status` value: OK or an error. -/
inductive Status
  | ok
  | err (e : ErrStatus)
  deriving DecidableEq, Repr

/-- The `ClusterRole` of the process (`serverGlobalParams.clusterRole`). -/
inductive ClusterRole
  | None
  | ShardServer
  | ConfigServer
  deriving DecidableEq, Repr

/-- The `ConnectionString::ConnectionType` enum. -/
inductive ConnectionStringType
  | INVALID
  | MASTER
  | SET
  | CUSTOM
  | LOCAL
  deriving DecidableEq, Repr

/-- A `ConnectionString`: its type, replica-set name (empty unless `SET`), and
host list.  Only the type and set name are inspected by the code in this file;
the host list is carried to distinguish connection strings that differ only in
membership. -/
structure ConnectionString where
  ctype : ConnectionStringType
  setName : String
  hosts : List String
  deriving DecidableEq, Repr

/-- The cluster id, an `OID`; modelled as a natural number where `0` is the
all-zero unset `OID` (`isSet()` is `≠ 0`). -/
abbrev OID := Nat

/-- The `ShardIdentityType` document: shard name, cluster id, and the config
server connection string. -/
structure ShardIdentityType where
  shardName : String
  clusterId : OID
  configsvrConnString : ConnectionString
  deriving DecidableEq, Repr

/-- Modelled from the spec: `ShardIdentityType::validate` is implemented in
`type_shard_identity.cpp`, which is not part of this file.  The spec describes
validation as requiring a non-empty shard name, a well-formed config
connection string that names a replica set, and a cluster id that is set
(section 3's IdentityRecord invariants and section 4.1's validation step). -/
def ShardIdentityType.validate (si : ShardIdentityType) : Status :=
  if si.shardName = "" then .err ⟨.NoSuchKey, none⟩
  else if si.clusterId = 0 then .err ⟨.NoSuchKey, none⟩
  else if si.configsvrConnString.ctype ≠ .SET then .err ⟨.UnsupportedFormat, none⟩
  else .ok

/-- The `ShardingState::InitializationState` enum. -/
inductive InitializationState
  | kNew
  | kInitialized
  | kError
  deriving DecidableEq, Repr

/-- The mutable fields of `ShardingState` relevant to initialization:
`_initializationState`, `_initializationStatus`, `_shardName`, `_clusterId`. -/
structure ShardingStateData where
  initializationState : InitializationState
  initializationStatus : ErrStatus
  shardName : String
  clusterId : OID
  deriving DecidableEq, Repr

/-- The state installed by the `ShardingState` constructor: `kNew`, an
`InternalError "Uninitialized value"` status, and default (empty / unset)
identity fields. -/
def ShardingState.initial : ShardingStateData :=
  ⟨.kNew, ⟨.InternalError, none⟩, "", 0⟩

/-- `ShardingState::enabled`: true iff the atomic initialization state is
`kInitialized`. -/
def ShardingState.enabled (st : ShardingStateData) : Bool :=
  st.initializationState = .kInitialized

/-- `ShardingState::canAcceptShardedCommands`: `NoShardingEnabled` when the
cluster role is not shard server, `ShardingStateNotInitialized` when the role
is shard server but the state machine is not enabled, OK otherwise. -/
def ShardingState.canAcceptShardedCommands (clusterRole : ClusterRole)
    (st : ShardingStateData) : Status :=
  if clusterRole ≠ .ShardServer then .err ⟨.NoShardingEnabled, none⟩
  else if ¬ ShardingState.enabled st then .err ⟨.ShardingStateNotInitialized, none⟩
  else .ok

/-- Outcome of the external global-initialization callback `_globalInit`
(`initializeGlobalShardingStateForMongod` in production): it may return OK,
return a non-OK status, or throw a `DBException` carrying a status. -/
inductive GlobalInitOutcome
  | ok
  | fail (s : ErrStatus)
  | throws (s : ErrStatus)
  deriving DecidableEq, Repr

/-- The environment `ShardingState::initializeFromShardIdentity` reads:
the process cluster role, whether the operation context holds a lock, the
grid shard registry's current config server connection string, and the
behaviour of the global-initialization callback. -/
structure InitEnv where
  clusterRole : ClusterRole
  isLocked : Bool
  prevConfigsvrConnStr : ConnectionString
  globalInit : GlobalInitOutcome
  deriving DecidableEq, Repr

/-- Outcome of `initializeFromShardIdentity`: a returned `Status`, or a
process-fatal `invariant` / `fassert` branch identified by a number. -/
inductive InitOutcome
  | ok
  | err (e : ErrStatus)
  | fatal (id : Nat)
  deriving DecidableEq, Repr

/-- The error code of an `InitOutcome`, when it is an error return. -/
def InitOutcome.errCode : InitOutcome → Option ErrorCode
  | .err e => some e.code
  | _ => none

/-- Result of one `initializeFromShardIdentity` call: the outcome, the state
after the call, and whether the global-initialization callback was invoked. -/
structure InitResult where
  outcome : InitOutcome
  state : ShardingStateData
  invokedGlobalInit : Bool
  deriving DecidableEq, Repr

/-- `ShardingState::initializeFromShardIdentity`, step for step:
entry invariants (shard-server role: fatal 1; locked operation context:
fatal 2); validation of the identity document (a non-OK validation status is
returned with added context); if already enabled, field-by-field comparison
against the stored identity (`invariant(!_shardName.empty())`: fatal 3;
`fassert(40372, ...)` on the shard name; `invariant` that the registry's
connection string is of SET type: fatal 4; `fassert(40373, ...)` on the set
name; `invariant(_clusterId.isSet())`: fatal 5; `fassert(40374, ...)` on the
cluster id; all equal: OK with no state change); if in `kError`, a
`ManualInterventionRequired` error caused by the stored initialization
status; otherwise the global-initialization callback runs: on OK the state
becomes `kInitialized` and the identity fields are stored; on a returned
failure the status is stored, the state becomes `kError`, the identity
fields are still stored, and the failure is returned; on a thrown exception
the status is stored and the state becomes `kError` without storing the
identity fields. -/
def ShardingState.initializeFromShardIdentity (env : InitEnv)
    (st : ShardingStateData) (shardIdentity : ShardIdentityType) : InitResult :=
  if env.clusterRole ≠ .ShardServer then ⟨.fatal 1, st, false⟩
  else if ¬ env.isLocked then ⟨.fatal 2, st, false⟩
  else
    match shardIdentity.validate with
    | .err v => ⟨.err v, st, false⟩
    | .ok =>
      let configSvrConnStr := shardIdentity.configsvrConnString
      if ShardingState.enabled st then
        if st.shardName = "" then ⟨.fatal 3, st, false⟩
        else if st.shardName ≠ shardIdentity.shardName then ⟨.fatal 40372, st, false⟩
        else if env.prevConfigsvrConnStr.ctype ≠ .SET then ⟨.fatal 4, st, false⟩
        else if env.prevConfigsvrConnStr.setName ≠ configSvrConnStr.setName then
          ⟨.fatal 40373, st, false⟩
        else if st.clusterId = 0 then ⟨.fatal 5, st, false⟩
        else if st.clusterId ≠ shardIdentity.clusterId then ⟨.fatal 40374, st, false⟩
        else ⟨.ok, st, false⟩
      else if st.initializationState = .kError then
        ⟨.err ⟨.ManualInterventionRequired, some st.initializationStatus.code⟩, st, false⟩
      else
        match env.globalInit with
        | .ok =>
          ⟨.ok,
           { st with initializationState := .kInitialized,
                     shardName := shardIdentity.shardName,
                     clusterId := shardIdentity.clusterId }, true⟩
        | .fail s =>
          ⟨.err s,
           { st with initializationState := .kError,
                     initializationStatus := s,
                     shardName := shardIdentity.shardName,
                     clusterId := shardIdentity.clusterId }, true⟩
        | .throws s =>
          ⟨.err s,
           { st with initializationState := .kError,
                     initializationStatus := s }, true⟩

/-- The environment `ShardingState::initializeShardingAwarenessIfNeeded` reads:
whether the operation context already holds a lock, `storageGlobalParams.readOnly`,
the cluster role, the `--overrideShardIdentity` parameter (`none` for an empty
BSON object, otherwise the result of `ShardIdentityType::fromBSON` on it), the
result of the disk lookup of the shard identity document (a thrown storage
error, or the optional found document with its `fromBSON` result), and the
environment of the inner `initializeFromShardIdentity` call. -/
structure BootstrapEnv where
  isLocked : Bool
  readOnly : Bool
  clusterRole : ClusterRole
  overrideShardIdentity : Option (Except ErrStatus ShardIdentityType)
  diskLookup : Except ErrStatus (Option (Except ErrStatus ShardIdentityType))
  prevConfigsvrConnStr : ConnectionString
  globalInit : GlobalInitOutcome
  deriving Repr

/-- Outcome of `initializeShardingAwarenessIfNeeded`, a `StatusWith<bool>`:
either a success carrying whether the node became sharding aware, an error
status, or a process-fatal branch. -/
inductive AwarenessOutcome
  | becameAware (b : Bool)
  | err (e : ErrStatus)
  | fatal (id : Nat)
  deriving DecidableEq, Repr

/-- Result of `initializeShardingAwarenessIfNeeded`: the outcome, the state
after the call, and whether a warning was logged. -/
structure AwarenessResult where
  outcome : AwarenessOutcome
  state : ShardingStateData
  warned : Bool
  deriving DecidableEq, Repr

/-- `ShardingState::initializeShardingAwarenessIfNeeded`, step for step:
entry `invariant(!opCtx->lockState()->isLocked())` (fatal 6).  In read-only
mode: a shard server requires a non-empty `--overrideShardIdentity` (else
`InvalidOptions`), parses it (parse errors returned), takes the global write
lock and initializes from it, returning true on success; a non-shard-server
errors with `InvalidOptions` if an override was given and returns false
otherwise.  In normal mode: a non-empty override is `InvalidOptions`; the
shard identity document is looked up on disk (a thrown storage error is
returned); a shard server returns false with a warning when no document was
found, else parses it, takes the global write lock and initializes from it,
returning true on success; a non-shard-server returns false, warning when a
document was found on disk. -/
def ShardingState.initializeShardingAwarenessIfNeeded (env : BootstrapEnv)
    (st : ShardingStateData) : AwarenessResult :=
  if env.isLocked then ⟨.fatal 6, st, false⟩
  else if env.readOnly then
    if env.clusterRole = .ShardServer then
      match env.overrideShardIdentity with
      | none => ⟨.err ⟨.InvalidOptions, none⟩, st, false⟩
      | some (.error e) => ⟨.err e, st, false⟩
      | some (.ok overrideShardIdentity) =>
        let r := ShardingState.initializeFromShardIdentity
          ⟨env.clusterRole, true, env.prevConfigsvrConnStr, env.globalInit⟩
          st overrideShardIdentity
        match r.outcome with
        | .ok => ⟨.becameAware true, r.state, false⟩
        | .err e => ⟨.err e, r.state, false⟩
        | .fatal id => ⟨.fatal id, r.state, false⟩
    else
      if env.overrideShardIdentity.isSome then ⟨.err ⟨.InvalidOptions, none⟩, st, false⟩
      else ⟨.becameAware false, st, false⟩
  else
    if env.overrideShardIdentity.isSome then ⟨.err ⟨.InvalidOptions, none⟩, st, false⟩
    else
      match env.diskLookup with
      | .error e => ⟨.err e, st, false⟩
      | .ok foundShardIdentity =>
        if env.clusterRole = .ShardServer then
          match foundShardIdentity with
          | none => ⟨.becameAware false, st, true⟩
          | some (.error e) => ⟨.err e, st, false⟩
          | some (.ok shardIdentity) =>
            let r := ShardingState.initializeFromShardIdentity
              ⟨env.clusterRole, true, env.prevConfigsvrConnStr, env.globalInit⟩
              st shardIdentity
            match r.outcome with
            | .ok => ⟨.becameAware true, r.state, false⟩
            | .err e => ⟨.err e, r.state, false⟩
            | .fatal id => ⟨.fatal id, r.state, false⟩
        else
          ⟨.becameAware false, st, foundShardIdentity.isSome⟩

/-- Outcome of the storage layer's `update` call inside
`updateShardIdentityConfigString`: a completed update reporting how many
documents matched, or a thrown `DBException` carrying a status. -/
inductive UpdateStorageOutcome
  | result (numMatched : Nat)
  | throws (e : ErrStatus)
  deriving DecidableEq, Repr

/-- Result of `updateShardIdentityConfigString`: the returned status and
whether the missing-document warning was logged. -/
structure UpdateResult where
  status : Status
  warned : Bool
  deriving DecidableEq, Repr

set_option linter.unusedVariables false in
/-- `ShardingState::updateShardIdentityConfigString`: builds the update for
the shard identity document with the new connection string and runs it; when
the update matched no document it logs a warning and still returns OK; when
the storage layer throws, the exception's status is returned unchanged;
otherwise OK.  The connection string parameter only shapes the written
update document, which the storage outcome abstracts. -/
def ShardingState.updateShardIdentityConfigString (newConnectionString : String)
    (storage : UpdateStorageOutcome) : UpdateResult :=
  match storage with
  | .result 0 => ⟨.ok, true⟩
  | .result (_ + 1) => ⟨.ok, false⟩
  | .throws e => ⟨.err e, false⟩

/-- Result of the asynchronous topology-change callback: which connection
string `updateShardIdentityConfigString` was invoked with (`none` when the
notification was ignored), and whether the callback logged a warning. -/
structure CBResult where
  invokedUpdate : Option String
  warned : Bool
  deriving DecidableEq, Repr

/-- `updateShardIdentityConfigStringCB` (the asynchronous replica-set
config-change hook): if the changed set's name differs from the config
server connection string's set name, the notification is ignored; otherwise
`updateShardIdentityConfigString` is invoked with the new connection string,
and a warning is logged exactly when it failed with an error outside the
`NotMasterError` category. -/
def updateShardIdentityConfigStringCB (configsvrConnStr : ConnectionString)
    (setName : String) (newConnectionString : String)
    (storage : UpdateStorageOutcome) : CBResult :=
  if configsvrConnStr.setName ≠ setName then ⟨none, false⟩
  else
    match (ShardingState.updateShardIdentityConfigString newConnectionString storage).status with
    | .ok => ⟨some newConnectionString, false⟩
    | .err e => ⟨some newConnectionString, ! e.code.isNotMasterError⟩

/-- A `MoveChunkRequest`: the namespace being donated and a descriptor of the
remaining request parameters. -/
structure MoveChunkRequest where
  nss : String
  descriptor : String
  deriving DecidableEq, Repr

/-- Modelled from the spec: the `ActiveMigrationsRegistry` implementation
(`active_migrations_registry.cpp`) is not part of this file; this file only
contains the delegating wrapper `ShardingState::registerDonateChunk`.  Per
spec section 4.2 the registry holds zero-or-one donate-chunk slot. -/
structure ActiveMigrationsRegistry where
  activeDonateChunk : Option MoveChunkRequest
  deriving DecidableEq, Repr

/-- Outcome of `registerDonateChunk`: a scoped handle over the installed
slot, or a conflict error naming the namespace currently being donated. -/
inductive RegisterDonateOutcome
  | ok
  | err (code : ErrorCode) (conflictingNss : String)
  deriving DecidableEq, Repr

/-- Modelled from the spec: `ActiveMigrationsRegistry::registerDonateChunk`
fails with `ConflictingOperationInProgress` describing the namespace
currently being donated when the donate slot is already held, and otherwise
atomically installs a donate slot describing the request and returns a
scoped handle. -/
def ActiveMigrationsRegistry.registerDonateChunk (reg : ActiveMigrationsRegistry)
    (args : MoveChunkRequest) : RegisterDonateOutcome × ActiveMigrationsRegistry :=
  match reg.activeDonateChunk with
  | some active => (.err .ConflictingOperationInProgress active.nss, reg)
  | none => (.ok, { reg with activeDonateChunk := some args })

/-- Modelled from the spec: dropping the scoped handle returned by
`registerDonateChunk` frees the donate slot on release, on every exit path. -/
def ScopedDonateChunk.release (reg : ActiveMigrationsRegistry) : ActiveMigrationsRegistry :=
  { reg with activeDonateChunk := none }

/-- `ShardingState::registerDonateChunk`: delegates to the active-migrations
registry. -/
def ShardingState.registerDonateChunk (reg : ActiveMigrationsRegistry)
    (args : MoveChunkRequest) : RegisterDonateOutcome × ActiveMigrationsRegistry :=
  reg.registerDonateChunk args

/-- Outcomes of the nine-row bootstrap decision table of spec section 4.3. -/
inductive TableOutcome
  | invalidOptions
  | becameAwareFromOverride
  | becameAwareFromPersisted
  | notAware
  deriving DecidableEq, Repr

/-- The nine-row bootstrap decision table, written from the spec's words
(section 4.3) as a function of the four configuration/state axes: shard
role, read-only mode, override identity given, persisted identity found. -/
def bootstrapDecisionTable (isShard readOnly overrideGiven persistedFound : Bool) :
    TableOutcome :=
  if readOnly then
    if isShard then
      if overrideGiven then .becameAwareFromOverride else .invalidOptions
    else
      if overrideGiven then .invalidOptions else .notAware
  else
    if overrideGiven then .invalidOptions
    else if isShard then
      if persistedFound then .becameAwareFromPersisted else .notAware
    else .notAware

/-- Whether an optional identity-document parse result is either absent or a
successfully parsed identity that passes validation. -/
def parsesAndValidates : Option (Except ErrStatus ShardIdentityType) → Bool
  | none => true
  | some (.error _) => false
  | some (.ok si) => si.validate = .ok

/-- Whether the disk lookup of the shard identity document did not throw and
its optional result `parsesAndValidates`. -/
def diskParsesAndValidates :
    Except ErrStatus (Option (Except ErrStatus ShardIdentityType)) → Bool
  | .error _ => false
  | .ok found => parsesAndValidates found

/-- Whether the disk lookup completed and found a shard identity document. -/
def diskFound : Except ErrStatus (Option (Except ErrStatus ShardIdentityType)) → Bool
  | .ok (some _) => true
  | _ => false

/-- Whether an awareness outcome agrees with a row outcome of the spec's
decision table: table failures are `InvalidOptions` errors, the two
initialize rows are "became aware" successes, and "not aware" rows are
`false` successes. -/
def agreesWithTable (t : TableOutcome) (o : AwarenessOutcome) : Bool :=
  match t, o with
  | .invalidOptions, .err e => e.code = .InvalidOptions
  | .becameAwareFromOverride, .becameAware b => b
  | .becameAwareFromPersisted, .becameAware b => b
  | .notAware, .becameAware b => !b
  | _, _ => false

/-- A config server replica-set connection string used in concrete runs. -/
def exampleConnStr : ConnectionString := ⟨.SET, "configRS", ["cfg1:27019"]⟩

/-- A connection string for the same replica set with an enlarged host list. -/
def exampleConnStr2 : ConnectionString := ⟨.SET, "configRS", ["cfg1:27019", "cfg2:27019"]⟩

/-- A valid shard identity document used in concrete runs. -/
def exampleIdentity : ShardIdentityType := ⟨"shard01", 1, exampleConnStr⟩

/-- A failure status returned by the global-initialization callback in
concrete runs. -/
def exampleFailure : ErrStatus := ⟨.OperationFailed, none⟩

/-- The state after a successful first bootstrap from `exampleIdentity`. -/
def initializedState : ShardingStateData :=
  (ShardingState.initializeFromShardIdentity
    ⟨.ShardServer, true, exampleConnStr, .ok⟩ ShardingState.initial exampleIdentity).state

/-- The state after a first bootstrap in which the global-initialization
callback returned `exampleFailure`. -/
def errorState : ShardingStateData :=
  (ShardingState.initializeFromShardIdentity
    ⟨.ShardServer, true, exampleConnStr, .fail exampleFailure⟩
    ShardingState.initial exampleIdentity).state

/-- Validation succeeds exactly when the shard name is non-empty, the
cluster id is set, and the connection string names a replica set. -/
lemma validate_ok_iff (si : ShardIdentityType) :
    si.validate = .ok ↔
      si.shardName ≠ "" ∧ si.clusterId ≠ 0 ∧ si.configsvrConnString.ctype = .SET := by
  unfold ShardIdentityType.validate
  split_ifs <;> simp_all

/-- On a fresh state with a valid identity and a succeeding callback,
`initializeFromShardIdentity` succeeds, stores the identity, and moves to
`kInitialized`. -/
lemma initializeFromShardIdentity_kNew_ok (env : InitEnv) (st : ShardingStateData)
    (si : ShardIdentityType) (hrole : env.clusterRole = .ShardServer)
    (hlock : env.isLocked = true) (hval : si.validate = .ok)
    (hnew : st.initializationState = .kNew) (hgi : env.globalInit = .ok) :
    ShardingState.initializeFromShardIdentity env st si =
      ⟨.ok, ⟨.kInitialized, st.initializationStatus, si.shardName, si.clusterId⟩, true⟩ := by
  unfold ShardingState.initializeFromShardIdentity
  rw [hval]
  simp [hrole, hlock, ShardingState.enabled, hnew, hgi]

/-- On a fresh state with a valid identity and a callback returning a
failure, the failure is stored together with the attempted identity and the
state moves to `kError`. -/
lemma initializeFromShardIdentity_kNew_fail (env : InitEnv) (st : ShardingStateData)
    (si : ShardIdentityType) (s : ErrStatus) (hrole : env.clusterRole = .ShardServer)
    (hlock : env.isLocked = true) (hval : si.validate = .ok)
    (hnew : st.initializationState = .kNew) (hgi : env.globalInit = .fail s) :
    ShardingState.initializeFromShardIdentity env st si =
      ⟨.err s, ⟨.kError, s, si.shardName, si.clusterId⟩, true⟩ := by
  unfold ShardingState.initializeFromShardIdentity
  rw [hval]
  simp [hrole, hlock, ShardingState.enabled, hnew, hgi]

/-- On a fresh state with a valid identity and a callback that throws, the
thrown status is stored and the state moves to `kError` without storing the
identity fields. -/
lemma initializeFromShardIdentity_kNew_throws (env : InitEnv) (st : ShardingStateData)
    (si : ShardIdentityType) (s : ErrStatus) (hrole : env.clusterRole = .ShardServer)
    (hlock : env.isLocked = true) (hval : si.validate = .ok)
    (hnew : st.initializationState = .kNew) (hgi : env.globalInit = .throws s) :
    ShardingState.initializeFromShardIdentity env st si =
      ⟨.err s, ⟨.kError, s, st.shardName, st.clusterId⟩, true⟩ := by
  unfold ShardingState.initializeFromShardIdentity
  rw [hval]
  simp [hrole, hlock, ShardingState.enabled, hnew, hgi]

/-- In the `kError` state, a call with a valid identity returns
`ManualInterventionRequired` caused by the stored status, with no state
change and no callback invocation. -/
lemma initializeFromShardIdentity_kError (env : InitEnv) (st : ShardingStateData)
    (si : ShardIdentityType) (hrole : env.clusterRole = .ShardServer)
    (hlock : env.isLocked = true) (hval : si.validate = .ok)
    (herr : st.initializationState = .kError) :
    ShardingState.initializeFromShardIdentity env st si =
      ⟨.err ⟨.ManualInterventionRequired, some st.initializationStatus.code⟩, st, false⟩ := by
  unfold ShardingState.initializeFromShardIdentity
  rw [hval]
  simp [hrole, hlock, ShardingState.enabled, herr]

/-- C6: `canAcceptShardedCommands` returns the not-a-shard-server error
(`NoShardingEnabled`) whenever the cluster role is not shard server,
regardless of initialization state; returns the not-initialized error
(`ShardingStateNotInitialized`) when the role is shard server but the state
is not `kInitialized`; and returns OK exactly when the role is shard server
and the state is `kInitialized`. -/
theorem canAcceptShardedCommands_decision (role : ClusterRole) (st : ShardingStateData) :
    (role ≠ .ShardServer →
      ShardingState.canAcceptShardedCommands role st = .err ⟨.NoShardingEnabled, none⟩) ∧
    (role = .ShardServer → st.initializationState ≠ .kInitialized →
      ShardingState.canAcceptShardedCommands role st =
        .err ⟨.ShardingStateNotInitialized, none⟩) ∧
    (ShardingState.canAcceptShardedCommands role st = .ok ↔
      role = .ShardServer ∧ st.initializationState = .kInitialized) := by
  unfold ShardingState.canAcceptShardedCommands ShardingState.enabled
  rcases role <;> rcases st with ⟨s, i, n, c⟩ <;> rcases s <;> simp

/-- Witness for C6 at a concrete input: a config server role is rejected
with `NoShardingEnabled`. -/
theorem canAcceptShardedCommands_decision_witness :
    ShardingState.canAcceptShardedCommands .ConfigServer ShardingState.initial =
      .err ⟨.NoShardingEnabled, none⟩ :=
  (canAcceptShardedCommands_decision .ConfigServer ShardingState.initial).1 (by decide)

/-- C8: `updateShardIdentityConfigString` returns success when the update
matched no shard identity document, logging only a warning; returns success
without the warning when a document matched; and returns an error exactly
when the storage layer throws, propagating the thrown status unchanged. -/
theorem updateShardIdentityConfigString_tolerance (newConnectionString : String)
    (n : Nat) (e : ErrStatus) :
    ShardingState.updateShardIdentityConfigString newConnectionString (.result 0) =
      ⟨.ok, true⟩ ∧
    ShardingState.updateShardIdentityConfigString newConnectionString (.result (n + 1)) =
      ⟨.ok, false⟩ ∧
    ShardingState.updateShardIdentityConfigString newConnectionString (.throws e) =
      ⟨.err e, false⟩ :=
  ⟨rfl, rfl, rfl⟩

/-- C7: the asynchronous topology-change callback ignores a notification
whose replica-set name differs from the config server connection string's
set name (never invoking the update routine); when the names match it
invokes `updateShardIdentityConfigString` with the new connection string,
and it warns exactly when that call failed with an error outside the
`NotMasterError` category. -/
theorem updateShardIdentityConfigStringCB_behaviour (configsvrConnStr : ConnectionString)
    (setName newConnectionString : String) (storage : UpdateStorageOutcome) :
    (configsvrConnStr.setName ≠ setName →
      updateShardIdentityConfigStringCB configsvrConnStr setName newConnectionString storage =
        ⟨none, false⟩) ∧
    (configsvrConnStr.setName = setName →
      (updateShardIdentityConfigStringCB configsvrConnStr setName newConnectionString
          storage).invokedUpdate = some newConnectionString ∧
      ((updateShardIdentityConfigStringCB configsvrConnStr setName newConnectionString
          storage).warned = true ↔
        ∃ e, (ShardingState.updateShardIdentityConfigString newConnectionString
            storage).status = .err e ∧ e.code.isNotMasterError = false)) := by
  constructor
  · intro h
    unfold updateShardIdentityConfigStringCB
    simp [h]
  · intro h
    unfold updateShardIdentityConfigStringCB
    rcases storage with n | e
    · rcases n with _ | n <;>
        simp [h, ShardingState.updateShardIdentityConfigString]
    · simp [h, ShardingState.updateShardIdentityConfigString]

/-- Witness for C7 at a concrete input: a notification for a different set
name is ignored. -/
theorem updateShardIdentityConfigStringCB_behaviour_witness :
    updateShardIdentityConfigStringCB exampleConnStr "otherRS" "otherRS/h1:27017"
      (.result 1) = ⟨none, false⟩ :=
  (updateShardIdentityConfigStringCB_behaviour exampleConnStr "otherRS" "otherRS/h1:27017"
    (.result 1)).1 (by decide)

/-- C5: at most one donate-chunk slot is held at any instant — a
`registerDonateChunk` call made while a slot is held fails with
`ConflictingOperationInProgress` naming the namespace being donated and
leaves the registry unchanged; a call against a free slot installs the
request; and after the scoped handle is released a new call succeeds. -/
theorem registerDonateChunk_singleFlight (reg reg2 : ActiveMigrationsRegistry)
    (args args2 : MoveChunkRequest) (active : MoveChunkRequest) :
    (reg.activeDonateChunk = some active →
      ShardingState.registerDonateChunk reg args =
        (.err .ConflictingOperationInProgress active.nss, reg)) ∧
    (reg.activeDonateChunk = none →
      ShardingState.registerDonateChunk reg args = (.ok, ⟨some args⟩)) ∧
    ShardingState.registerDonateChunk (ScopedDonateChunk.release reg2) args2 =
      (.ok, ⟨some args2⟩) := by
  unfold ShardingState.registerDonateChunk ActiveMigrationsRegistry.registerDonateChunk
    ScopedDonateChunk.release
  rcases reg with ⟨_ | a⟩ <;> simp
  rintro rfl
  rfl

/-- Witness for C5 at a concrete input: a second registration while a slot
is live fails with `ConflictingOperationInProgress`. -/
theorem registerDonateChunk_singleFlight_witness :
    ShardingState.registerDonateChunk ⟨some ⟨"db.coll", "range1"⟩⟩ ⟨"db.other", "range2"⟩ =
      (.err .ConflictingOperationInProgress "db.coll", ⟨some ⟨"db.coll", "range1"⟩⟩) :=
  (registerDonateChunk_singleFlight ⟨some ⟨"db.coll", "range1"⟩⟩ ⟨none⟩
    ⟨"db.other", "range2"⟩ ⟨"", ""⟩ ⟨"db.coll", "range1"⟩).1 rfl

/-- C9: when the global-initialization callback fails with a non-OK status
without throwing, `initializeFromShardIdentity` still stores the attempted
identity's shard name and cluster id before returning the failure, so the
resulting `kError` state carries the identity of the failed attempt. -/
theorem initializeFromShardIdentity_failStoresIdentity (env : InitEnv)
    (st : ShardingStateData) (si : ShardIdentityType) (s : ErrStatus)
    (hrole : env.clusterRole = .ShardServer) (hlock : env.isLocked = true)
    (hval : si.validate = .ok) (hnew : st.initializationState = .kNew)
    (hgi : env.globalInit = .fail s) :
    ShardingState.initializeFromShardIdentity env st si =
      ⟨.err s, ⟨.kError, s, si.shardName, si.clusterId⟩, true⟩ := by
  unfold ShardingState.initializeFromShardIdentity
  rw [hval]
  simp [hrole, hlock, ShardingState.enabled, hnew, hgi]

/-- Witness for C9 at a concrete input: a failed callback leaves an error
state that still carries "shard01" and cluster id 1. -/
theorem initializeFromShardIdentity_failStoresIdentity_witness :
    ShardingState.initializeFromShardIdentity
        ⟨.ShardServer, true, exampleConnStr, .fail exampleFailure⟩
        ShardingState.initial exampleIdentity =
      ⟨.err exampleFailure, ⟨.kError, exampleFailure, "shard01", 1⟩, true⟩ :=
  initializeFromShardIdentity_failStoresIdentity
    ⟨.ShardServer, true, exampleConnStr, .fail exampleFailure⟩
    ShardingState.initial exampleIdentity exampleFailure rfl rfl (by decide) rfl rfl

/-- C3: a second `initializeFromShardIdentity` call with the identical
identity after a successful first call returns success both times, invokes
the global-initialization callback exactly once (on the first call), and
makes no state change on the second call. -/
theorem initializeFromShardIdentity_idempotent (env1 env2 : InitEnv)
    (st : ShardingStateData) (si : ShardIdentityType)
    (hrole1 : env1.clusterRole = .ShardServer) (hlock1 : env1.isLocked = true)
    (hgi1 : env1.globalInit = .ok) (hval : si.validate = .ok)
    (hnew : st.initializationState = .kNew)
    (hrole2 : env2.clusterRole = .ShardServer) (hlock2 : env2.isLocked = true)
    (htype2 : env2.prevConfigsvrConnStr.ctype = .SET)
    (hset2 : env2.prevConfigsvrConnStr.setName = si.configsvrConnString.setName) :
    (ShardingState.initializeFromShardIdentity env1 st si).outcome = .ok ∧
    (ShardingState.initializeFromShardIdentity env1 st si).invokedGlobalInit = true ∧
    ShardingState.initializeFromShardIdentity env2
        (ShardingState.initializeFromShardIdentity env1 st si).state si =
      ⟨.ok, (ShardingState.initializeFromShardIdentity env1 st si).state, false⟩ := by
  obtain ⟨hname, hcid, -⟩ := (validate_ok_iff si).mp hval
  rw [initializeFromShardIdentity_kNew_ok env1 st si hrole1 hlock1 hval hnew hgi1]
  refine ⟨rfl, rfl, ?_⟩
  unfold ShardingState.initializeFromShardIdentity
  rw [hval]
  simp [hrole2, hlock2, ShardingState.enabled, htype2, hset2, hname, hcid]

/-- Witness for C3 at a concrete input: bootstrapping twice from
`exampleIdentity` succeeds both times without a second callback invocation. -/
theorem initializeFromShardIdentity_idempotent_witness :
    (ShardingState.initializeFromShardIdentity
        ⟨.ShardServer, true, exampleConnStr, .ok⟩
        ShardingState.initial exampleIdentity).outcome = .ok ∧
    (ShardingState.initializeFromShardIdentity
        ⟨.ShardServer, true, exampleConnStr, .ok⟩
        ShardingState.initial exampleIdentity).invokedGlobalInit = true ∧
    ShardingState.initializeFromShardIdentity ⟨.ShardServer, true, exampleConnStr, .ok⟩
        (ShardingState.initializeFromShardIdentity
          ⟨.ShardServer, true, exampleConnStr, .ok⟩
          ShardingState.initial exampleIdentity).state exampleIdentity =
      ⟨.ok, (ShardingState.initializeFromShardIdentity
          ⟨.ShardServer, true, exampleConnStr, .ok⟩
          ShardingState.initial exampleIdentity).state, false⟩ :=
  initializeFromShardIdentity_idempotent
    ⟨.ShardServer, true, exampleConnStr, .ok⟩ ⟨.ShardServer, true, exampleConnStr, .ok⟩
    ShardingState.initial exampleIdentity rfl rfl rfl (by decide) rfl rfl rfl rfl rfl

/-- C2 counterexample: after a first bootstrap whose callback failed, a
subsequent `initializeFromShardIdentity` call with an identity that fails
validation (empty shard name) returns the validation error (`NoSuchKey`),
not `ManualInterventionRequired` — so the claim's "for every input identity"
does not hold; validation runs before the error-state check. -/
theorem initializeFromShardIdentity_errorState_counterexample :
    errorState.initializationState = .kError ∧
    (ShardingState.initializeFromShardIdentity ⟨.ShardServer, true, exampleConnStr, .ok⟩
        errorState ⟨"", 0, exampleConnStr⟩).outcome.errCode = some .NoSuchKey ∧
    (ShardingState.initializeFromShardIdentity ⟨.ShardServer, true, exampleConnStr, .ok⟩
        errorState ⟨"", 0, exampleConnStr⟩).outcome.errCode ≠
      some .ManualInterventionRequired := by
  decide

/-- C2 (amended): if the global-initialization callback returns a failure or
throws, the state transitions to `kError` with the original failure stored
and returned; thereafter every call with an identity that passes validation
returns `ManualInterventionRequired` carrying the original failure's code,
with no state change and without invoking the callback again. -/
theorem initializeFromShardIdentity_errorState_permanent (env1 env2 : InitEnv)
    (st : ShardingStateData) (si1 si2 : ShardIdentityType) (s : ErrStatus)
    (hrole1 : env1.clusterRole = .ShardServer) (hlock1 : env1.isLocked = true)
    (hval1 : si1.validate = .ok) (hnew : st.initializationState = .kNew)
    (hgi : env1.globalInit = .fail s ∨ env1.globalInit = .throws s)
    (hrole2 : env2.clusterRole = .ShardServer) (hlock2 : env2.isLocked = true)
    (hval2 : si2.validate = .ok) :
    (ShardingState.initializeFromShardIdentity env1 st si1).outcome = .err s ∧
    (ShardingState.initializeFromShardIdentity env1 st si1).state.initializationState =
      .kError ∧
    (ShardingState.initializeFromShardIdentity env1 st si1).state.initializationStatus = s ∧
    (ShardingState.initializeFromShardIdentity env1 st si1).invokedGlobalInit = true ∧
    ShardingState.initializeFromShardIdentity env2
        (ShardingState.initializeFromShardIdentity env1 st si1).state si2 =
      ⟨.err ⟨.ManualInterventionRequired, some s.code⟩,
       (ShardingState.initializeFromShardIdentity env1 st si1).state, false⟩ := by
  rcases hgi with h | h
  · rw [initializeFromShardIdentity_kNew_fail env1 st si1 s hrole1 hlock1 hval1 hnew h]
    refine ⟨rfl, rfl, rfl, rfl, ?_⟩
    rw [initializeFromShardIdentity_kError env2 _ si2 hrole2 hlock2 hval2 rfl]
  · rw [initializeFromShardIdentity_kNew_throws env1 st si1 s hrole1 hlock1 hval1 hnew h]
    refine ⟨rfl, rfl, rfl, rfl, ?_⟩
    rw [initializeFromShardIdentity_kError env2 _ si2 hrole2 hlock2 hval2 rfl]

/-- Witness for the amended C2 at a concrete input: after the failed first
bootstrap, a second call with the valid `exampleIdentity` returns
`ManualInterventionRequired` caused by `OperationFailed`. -/
theorem initializeFromShardIdentity_errorState_permanent_witness :
    (ShardingState.initializeFromShardIdentity
        ⟨.ShardServer, true, exampleConnStr, .fail exampleFailure⟩
        ShardingState.initial exampleIdentity).outcome = .err exampleFailure ∧
    (ShardingState.initializeFromShardIdentity
        ⟨.ShardServer, true, exampleConnStr, .fail exampleFailure⟩
        ShardingState.initial exampleIdentity).state.initializationState = .kError ∧
    (ShardingState.initializeFromShardIdentity
        ⟨.ShardServer, true, exampleConnStr, .fail exampleFailure⟩
        ShardingState.initial exampleIdentity).state.initializationStatus = exampleFailure ∧
    (ShardingState.initializeFromShardIdentity
        ⟨.ShardServer, true, exampleConnStr, .fail exampleFailure⟩
        ShardingState.initial exampleIdentity).invokedGlobalInit = true ∧
    ShardingState.initializeFromShardIdentity ⟨.ShardServer, true, exampleConnStr, .ok⟩
        (ShardingState.initializeFromShardIdentity
          ⟨.ShardServer, true, exampleConnStr, .fail exampleFailure⟩
          ShardingState.initial exampleIdentity).state exampleIdentity =
      ⟨.err ⟨.ManualInterventionRequired, some .OperationFailed⟩,
       (ShardingState.initializeFromShardIdentity
         ⟨.ShardServer, true, exampleConnStr, .fail exampleFailure⟩
         ShardingState.initial exampleIdentity).state, false⟩ :=
  initializeFromShardIdentity_errorState_permanent
    ⟨.ShardServer, true, exampleConnStr, .fail exampleFailure⟩
    ⟨.ShardServer, true, exampleConnStr, .ok⟩
    ShardingState.initial exampleIdentity exampleIdentity exampleFailure
    rfl rfl (by decide) rfl (Or.inl rfl) rfl rfl (by decide)

/-- C4 counterexample: with the state machine already initialized from
`exampleIdentity`, a call supplying the same identity while the registry's
stored connection string (`exampleConnStr2`) differs from the identity's
(`exampleConnStr`, a strict subset of the hosts) returns success rather than
reaching a fatal-assert branch — the connection strings are compared only by
replica-set name, so a mismatch confined to the host list is not a fatal
consistency violation. -/
theorem initializeFromShardIdentity_enabled_counterexample :
    exampleIdentity.configsvrConnString ≠ exampleConnStr2 ∧
    initializedState.initializationState = .kInitialized ∧
    ShardingState.initializeFromShardIdentity
        ⟨.ShardServer, true, exampleConnStr2, .ok⟩ initializedState exampleIdentity =
      ⟨.ok, initializedState, false⟩ := by
  decide

/-- C4 (amended): when the state is already `kInitialized`, the supplied
identity is compared against the stored identity and registry connection
string; a mismatch in shard name, cluster id, or the connection string's
replica-set name reaches a fatal-assert branch (40372, 40374, 40373
respectively), while values matching on those fields return success with no
state change and no callback invocation (the connection string's host list
is not compared). -/
theorem initializeFromShardIdentity_enabled_fatalOnMismatch (env : InitEnv)
    (st : ShardingStateData) (si : ShardIdentityType)
    (hrole : env.clusterRole = .ShardServer) (hlock : env.isLocked = true)
    (hval : si.validate = .ok) (henabled : st.initializationState = .kInitialized)
    (hname : st.shardName ≠ "") (hcid : st.clusterId ≠ 0)
    (htype : env.prevConfigsvrConnStr.ctype = .SET) :
    ((st.shardName ≠ si.shardName ∨
      env.prevConfigsvrConnStr.setName ≠ si.configsvrConnString.setName ∨
      st.clusterId ≠ si.clusterId) →
      ((ShardingState.initializeFromShardIdentity env st si).outcome = .fatal 40372 ∨
       (ShardingState.initializeFromShardIdentity env st si).outcome = .fatal 40373 ∨
       (ShardingState.initializeFromShardIdentity env st si).outcome = .fatal 40374)) ∧
    (st.shardName = si.shardName →
      env.prevConfigsvrConnStr.setName = si.configsvrConnString.setName →
      st.clusterId = si.clusterId →
      ShardingState.initializeFromShardIdentity env st si = ⟨.ok, st, false⟩) := by
  obtain ⟨hn, hc, -⟩ := (validate_ok_iff si).mp hval
  unfold ShardingState.initializeFromShardIdentity
  rw [hval]
  simp only [hrole, hlock, ShardingState.enabled, henabled]
  by_cases h1 : st.shardName = si.shardName <;>
    by_cases h2 : env.prevConfigsvrConnStr.setName = si.configsvrConnString.setName <;>
      by_cases h3 : st.clusterId = si.clusterId <;>
        simp [h1, h2, h3, hname, hcid, htype, hn, hc]

/-- Witness for the amended C4 at a concrete input: a differing shard name
reaches fassert 40372. -/
theorem initializeFromShardIdentity_enabled_fatalOnMismatch_witness :
    ((initializedState.shardName ≠ "shard02" ∨
      exampleConnStr.setName ≠ exampleConnStr.setName ∨
      initializedState.clusterId ≠ 1) →
      ((ShardingState.initializeFromShardIdentity ⟨.ShardServer, true, exampleConnStr, .ok⟩
          initializedState ⟨"shard02", 1, exampleConnStr⟩).outcome = .fatal 40372 ∨
       (ShardingState.initializeFromShardIdentity ⟨.ShardServer, true, exampleConnStr, .ok⟩
          initializedState ⟨"shard02", 1, exampleConnStr⟩).outcome = .fatal 40373 ∨
       (ShardingState.initializeFromShardIdentity ⟨.ShardServer, true, exampleConnStr, .ok⟩
          initializedState ⟨"shard02", 1, exampleConnStr⟩).outcome = .fatal 40374)) ∧
    (initializedState.shardName = "shard02" →
      exampleConnStr.setName = exampleConnStr.setName →
      initializedState.clusterId = 1 →
      ShardingState.initializeFromShardIdentity ⟨.ShardServer, true, exampleConnStr, .ok⟩
          initializedState ⟨"shard02", 1, exampleConnStr⟩ =
        ⟨.ok, initializedState, false⟩) :=
  initializeFromShardIdentity_enabled_fatalOnMismatch
    ⟨.ShardServer, true, exampleConnStr, .ok⟩ initializedState ⟨"shard02", 1, exampleConnStr⟩
    rfl rfl (by decide) (by decide) (by decide) (by decide) rfl

/-- Every process-fatal branch inside `initializeFromShardIdentity` carries
an identifier other than 6 (which belongs to the entry invariant of
`initializeShardingAwarenessIfNeeded`). -/
lemma initializeFromShardIdentity_ne_fatal6 (env : InitEnv) (st : ShardingStateData)
    (si : ShardIdentityType) :
    (ShardingState.initializeFromShardIdentity env st si).outcome ≠ .fatal 6 := by
  unfold ShardingState.initializeFromShardIdentity
  repeat' split <;> try simp

/-- C10: `initializeFromShardIdentity` requires a shard-server cluster role
and a locked operation context, and `initializeShardingAwarenessIfNeeded`
requires an unlocked one; under those preconditions the entry process-fatal
branches (identifiers 1, 2 and 6) are unreachable, while calls violating
them are process-fatal with no state change rather than returning an
error. -/
theorem shardingState_entryInvariants (env : InitEnv) (st : ShardingStateData)
    (si : ShardIdentityType) (benv : BootstrapEnv) (bst : ShardingStateData) :
    (env.clusterRole = .ShardServer → env.isLocked = true →
      (ShardingState.initializeFromShardIdentity env st si).outcome ≠ .fatal 1 ∧
      (ShardingState.initializeFromShardIdentity env st si).outcome ≠ .fatal 2) ∧
    (env.clusterRole ≠ .ShardServer →
      ShardingState.initializeFromShardIdentity env st si = ⟨.fatal 1, st, false⟩) ∧
    (env.clusterRole = .ShardServer → env.isLocked = false →
      ShardingState.initializeFromShardIdentity env st si = ⟨.fatal 2, st, false⟩) ∧
    (benv.isLocked = true →
      ShardingState.initializeShardingAwarenessIfNeeded benv bst = ⟨.fatal 6, bst, false⟩) ∧
    (benv.isLocked = false →
      (ShardingState.initializeShardingAwarenessIfNeeded benv bst).outcome ≠ .fatal 6) := by
  refine ⟨fun hrole hlock => ⟨?_, ?_⟩, fun hrole => ?_, fun hrole hlock => ?_,
    fun hlk => ?_, fun hlk => ?_⟩
  · unfold ShardingState.initializeFromShardIdentity
    simp [hrole, hlock]
    repeat' split <;> try simp
  · unfold ShardingState.initializeFromShardIdentity
    simp [hrole, hlock]
    repeat' split <;> try simp
  · unfold ShardingState.initializeFromShardIdentity
    simp [hrole]
  · unfold ShardingState.initializeFromShardIdentity
    simp [hrole, hlock]
  · unfold ShardingState.initializeShardingAwarenessIfNeeded
    simp [hlk]
  · unfold ShardingState.initializeShardingAwarenessIfNeeded
    simp only [hlk, Bool.false_eq_true, if_false]
    repeat' split <;> try simp
    all_goals
      rename_i heq
      intro hc
      subst hc
      exact initializeFromShardIdentity_ne_fatal6 _ _ _ heq

/-- Witness for C10 at a concrete input: a config server role calling
`initializeFromShardIdentity` reaches the first entry invariant. -/
theorem shardingState_entryInvariants_witness :
    ShardingState.initializeFromShardIdentity ⟨.ConfigServer, true, exampleConnStr, .ok⟩
        ShardingState.initial exampleIdentity =
      ⟨.fatal 1, ShardingState.initial, false⟩ :=
  (shardingState_entryInvariants ⟨.ConfigServer, true, exampleConnStr, .ok⟩
    ShardingState.initial exampleIdentity
    ⟨false, false, .ShardServer, none, .ok none, exampleConnStr, .ok⟩
    ShardingState.initial).2.1 (by decide)

/-- C1: for every combination of cluster role, read-only mode, override
identity, and persisted identity document — with well-formed identity
payloads, a succeeding global-initialization callback, a fresh state and a
disk lookup that does not fail — `initializeShardingAwarenessIfNeeded`
returns exactly the outcome of the nine-row decision table of spec section
4.3: `InvalidOptions` in the three failure rows, "became aware" (true) in
the override and persisted-document initialization rows, and "not aware"
(false) in all remaining rows. -/
theorem initializeShardingAwarenessIfNeeded_decisionTable (env : BootstrapEnv)
    (st : ShardingStateData)
    (hlock : env.isLocked = false) (hnew : st.initializationState = .kNew)
    (hgi : env.globalInit = .ok)
    (hov : parsesAndValidates env.overrideShardIdentity = true)
    (hdisk : diskParsesAndValidates env.diskLookup = true) :
    agreesWithTable
      (bootstrapDecisionTable (decide (env.clusterRole = .ShardServer)) env.readOnly
        env.overrideShardIdentity.isSome (diskFound env.diskLookup))
      (ShardingState.initializeShardingAwarenessIfNeeded env st).outcome = true := by
  rcases env with ⟨lk, ro, role, ov, disk, prev, gi⟩
  simp only at hlock hgi hov hdisk
  subst hlock
  subst hgi
  rcases ro <;> rcases role <;>
    rcases ov with _ | ⟨e1 | osi⟩ <;>
      rcases disk with e2 | ⟨_ | ⟨e3 | dsi⟩⟩ <;>
        simp_all [ShardingState.initializeShardingAwarenessIfNeeded,
          initializeFromShardIdentity_kNew_ok, parsesAndValidates,
          diskParsesAndValidates, diskFound, bootstrapDecisionTable, agreesWithTable]

/-- Witness for C1 at a concrete input: the read-only shard-server row with
a valid override agrees with its table row ("became aware"). -/
theorem initializeShardingAwarenessIfNeeded_decisionTable_witness :
    agreesWithTable
      (bootstrapDecisionTable (decide (ClusterRole.ShardServer = .ShardServer)) true
        (some (Except.ok exampleIdentity) :
          Option (Except ErrStatus ShardIdentityType)).isSome
        (diskFound (.ok none)))
      (ShardingState.initializeShardingAwarenessIfNeeded
        ⟨false, true, .ShardServer, some (.ok exampleIdentity), .ok none,
         exampleConnStr, .ok⟩ ShardingState.initial).outcome = true :=
  initializeShardingAwarenessIfNeeded_decisionTable
    ⟨false, true, .ShardServer, some (.ok exampleIdentity), .ok none, exampleConnStr, .ok⟩
    ShardingState.initial rfl rfl rfl (by decide) (by decide)

end Mongo
